import Mathlib

/-!
Shallow embedding of the module-federation offline-fallback plugin
(`enhanced-offline-fallback-plugin.ts`): per-remote circuit breaking,
bounded retry, fallback-module caching, and the lifecycle-aware error
dispatcher (`errorLoadRemote`), together with theorems settling the
spec claims about them.

Conventions of the embedding:
- JS `Map<string, V>` is an association list `List (String × V)` with
  first-match lookup (`alget`) and replace-or-append update (`alset`).
- Object identity (referential equality) of fallback modules is made
  observable by stamping each freshly constructed module with a serial
  number drawn from a counter in the plugin state; two modules are the
  same instance iff they are equal as Lean values.
- A JS function that may `throw` is translated to `Except JsError _`;
  a hook that could return `undefined` returns an `Option`.
- `setTimeout` schedules asynchronous work; the synchronous semantics
  modelled here cover executions in which no timer has fired, which is
  the situation every claim under verification stipulates ("no timer
  reset", a single synchronous call sequence).
-/

set_option autoImplicit false

namespace OfflinePlugin

/-- A JS `Error` value, identified by its `message` text. -/
structure JsError where
  message : String
  deriving DecidableEq, Repr

/-- A React component value as the plugin can observe it: either a
caller-supplied custom component from `config.fallbackComponents`
(an opaque object, tagged by a number), or the default fallback
component created by `createFallbackComponent`, which closes over the
remote id and the (optional) error message it displays. -/
inductive Component where
  | supplied (tag : Nat)
  | generated (remoteId : String) (errMsg : Option String)
  deriving DecidableEq, Repr

/-- The fallback module object built by `createFallbackModule`:
`{ __esModule: true, default: FallbackComponent, [remoteId]: FallbackComponent }`.
`serial` is the identity stamp of this object (see file comment). -/
structure FallbackModule where
  serial : Nat
  esModule : Bool
  defaultExport : Component
  namedKey : String
  namedExport : Component
  deriving DecidableEq, Repr

/-- Source `interface RemoteState`. -/
structure RemoteState where
  failureCount : Nat
  lastFailureTime : Nat
  isCircuitOpen : Bool
  deriving DecidableEq, Repr

/-- Source `interface OfflineFallbackConfig`, with the defaults of
`enhancedOfflineFallbackPlugin` already resolved (every field present). -/
structure OfflineFallbackConfig where
  enableLogging : Bool
  fallbackTimeout : Nat
  retryAttempts : Nat
  retryDelay : Nat
  fallbackComponents : List (String × Component)
  enableCircuitBreaker : Bool
  circuitBreakerThreshold : Nat
  circuitBreakerResetTimeout : Nat
  deriving DecidableEq, Repr

/-- The plugin defaults: `enableLogging = true, fallbackTimeout = 5000,
retryAttempts = 2, retryDelay = 1000, fallbackComponents = {},
enableCircuitBreaker = true, circuitBreakerThreshold = 3,
circuitBreakerResetTimeout = 60000`. -/
def defaultConfig : OfflineFallbackConfig :=
  { enableLogging := true
    fallbackTimeout := 5000
    retryAttempts := 2
    retryDelay := 1000
    fallbackComponents := []
    enableCircuitBreaker := true
    circuitBreakerThreshold := 3
    circuitBreakerResetTimeout := 60000 }

/-- First-match lookup in an association list (JS `Map.get`). -/
def alget {β : Type} (k : String) : List (String × β) → Option β
  | [] => none
  | (k', v) :: rest => if k' = k then some v else alget k rest

/-- Replace-or-append update of an association list (JS `Map.set`). -/
def alset {β : Type} (k : String) (v : β) : List (String × β) → List (String × β)
  | [] => [(k, v)]
  | (k', v') :: rest => if k' = k then (k, v) :: rest else (k', v') :: alset k v rest

/-- The closure state of one plugin instance: the two `Map`s, the wall
clock (`Date.now()`), and the serial counter that witnesses object
allocation (see file comment). -/
structure PluginState where
  remoteStates : List (String × RemoteState)
  fallbackCache : List (String × FallbackModule)
  now : Nat
  nextSerial : Nat
  deriving DecidableEq, Repr

/-- The state of a plugin instance at creation time: both maps empty. -/
def initialState : PluginState :=
  { remoteStates := [], fallbackCache := [], now := 0, nextSerial := 0 }

/-- Source `getRemoteState`: returns the stored state, or the default
`{ failureCount: 0, lastFailureTime: 0, isCircuitOpen: false }` if
absent.  (The JS version also inserts that default into the map when
absent; since the inserted entry is exactly what an absent key already
reads as, reading with a default is observationally equivalent and
keeps the reads pure.) -/
def getRemoteState (σ : PluginState) (remoteId : String) : RemoteState :=
  match alget remoteId σ.remoteStates with
  | some s => s
  | none => { failureCount := 0, lastFailureTime := 0, isCircuitOpen := false }

/-- Source `updateRemoteState(remoteId, isSuccess)`.  On success, resets
`failureCount` and `isCircuitOpen`.  On failure, increments
`failureCount`, stamps `lastFailureTime = Date.now()`, and — when the
breaker is enabled and the new count reaches `circuitBreakerThreshold` —
sets `isCircuitOpen = true` (the `setTimeout` auto-reset it also
schedules is asynchronous and not part of this synchronous step; see
the file comment). -/
def updateRemoteState (cfg : OfflineFallbackConfig) (remoteId : String)
    (isSuccess : Bool) (σ : PluginState) : PluginState :=
  let s := getRemoteState σ remoteId
  if isSuccess then
    { σ with remoteStates :=
        alset remoteId { s with failureCount := 0, isCircuitOpen := false } σ.remoteStates }
  else
    let s1 := { s with failureCount := s.failureCount + 1, lastFailureTime := σ.now }
    let s2 :=
      if cfg.enableCircuitBreaker && cfg.circuitBreakerThreshold ≤ s1.failureCount then
        { s1 with isCircuitOpen := true }
      else
        s1
    { σ with remoteStates := alset remoteId s2 σ.remoteStates }

/-- Source `isCircuitOpen(remoteId)`: `false` when the breaker is
disabled, otherwise the stored flag. -/
def isCircuitOpen (cfg : OfflineFallbackConfig) (remoteId : String)
    (σ : PluginState) : Bool :=
  if !cfg.enableCircuitBreaker then false
  else (getRemoteState σ remoteId).isCircuitOpen

/-- Iterated failure reports: `n` consecutive
`updateRemoteState(remoteId, false)` calls for the same remote, with
nothing in between. -/
def recordFailures (cfg : OfflineFallbackConfig) (remoteId : String) :
    Nat → PluginState → PluginState
  | 0, σ => σ
  | n + 1, σ => updateRemoteState cfg remoteId false (recordFailures cfg remoteId n σ)

/-- JS `a || b` on an optional string `a`: `b` when `a` is absent
(`undefined`) or falsy (the empty string), else the string itself. -/
def jsStringOr (a : Option String) (b : String) : String :=
  match a with
  | some s => if s = "" then b else s
  | none => b

/-- Source `createFallbackComponent(remoteId, error?)`: the custom
component from `config.fallbackComponents[remoteId]` when one is
configured, otherwise the default fallback component (which closes over
`remoteId` and, when an error was given, its message for the details
pane). -/
def createFallbackComponent (cfg : OfflineFallbackConfig) (remoteId : String)
    (error : Option JsError) : Component :=
  match alget remoteId cfg.fallbackComponents with
  | some c => c
  | none => Component.generated remoteId (error.map JsError.message)

/-- The cache key of `createFallbackModule`:
`` `${remoteId}_${error?.message || 'default'}` ``.
`error?.message` is `undefined` when `error` is absent, and `||`
replaces both `undefined` and the empty string by `'default'`. -/
def cacheKey (remoteId : String) (error : Option JsError) : String :=
  remoteId ++ "_" ++ jsStringOr (error.map JsError.message) "default"

/-- Source `createFallbackModule(remoteId, error?)` — the spec's
`FallbackArtifactCache.getOrCreate`.  Returns the cached module when
the key is present; otherwise builds a fresh module object
`{ __esModule: true, default: FallbackComponent, [remoteId]: FallbackComponent }`
(stamped with a fresh serial, see file comment), stores it under the
key, and returns it. -/
def createFallbackModule (cfg : OfflineFallbackConfig) (remoteId : String)
    (error : Option JsError) (σ : PluginState) : FallbackModule × PluginState :=
  let key := cacheKey remoteId error
  match alget key σ.fallbackCache with
  | some m => (m, σ)
  | none =>
    let comp := createFallbackComponent cfg remoteId error
    let m : FallbackModule :=
      { serial := σ.nextSerial
        esModule := true
        defaultExport := comp
        namedKey := remoteId
        namedExport := comp }
    (m, { σ with fallbackCache := alset key m σ.fallbackCache
                 nextSerial := σ.nextSerial + 1 })

/-- Equality of `Except` values is decidable when it is on both sides;
needed so concrete retry outcomes can be checked by `decide`. -/
instance {ε α : Type} [DecidableEq ε] [DecidableEq α] :
    DecidableEq (Except ε α) := fun a b =>
  match a, b with
  | Except.ok x, Except.ok y =>
    if h : x = y then isTrue (by rw [h])
    else isFalse (by intro hh; cases hh; exact h rfl)
  | Except.ok _, Except.error _ => isFalse (by intro hh; cases hh)
  | Except.error _, Except.ok _ => isFalse (by intro hh; cases hh)
  | Except.error x, Except.error y =>
    if h : x = y then isTrue (by rw [h])
    else isFalse (by intro hh; cases hh; exact h rfl)

/-- The observable outcome of one `withRetry` invocation: the returned
value or thrown error, the plugin state afterwards, the sequence of
reports made to the remote-state registry (`true` = success report,
`false` = failure report, in order), and how many attempts ran. -/
structure RetryResult (α : Type) where
  result : Except JsError α
  state : PluginState
  reports : List Bool
  attemptsUsed : Nat
  deriving DecidableEq, Repr

/-- Loop body of `withRetry`.  `op i` is the settled outcome of attempt
`i` of the raced `Promise.race([operation(), timeout])`: `Except.ok v`
when the operation resolved first with `v`, `Except.error e` when it
rejected or the `'Request timeout'` timer won the race.  `remaining`
counts the loop iterations left, `i` the current attempt index, and
`lastErr` the source's `lastError` variable.  The inter-attempt
`setTimeout` delay changes no observable state and is not represented.
When the loop exhausts its attempts the source runs
`updateRemoteState(remoteId, false)` once and throws `lastError!`
(`lastError` is still `undefined` if the loop never ran — the
`attempts = 0` corner). -/
def withRetryGo {α : Type} (cfg : OfflineFallbackConfig)
    (op : Nat → Except JsError α) (remoteId : String) :
    Nat → Nat → Option JsError → PluginState → RetryResult α
  | 0, _, lastErr, σ =>
    { result := Except.error (lastErr.getD { message := "undefined" })
      state := updateRemoteState cfg remoteId false σ
      reports := [false]
      attemptsUsed := 0 }
  | remaining + 1, i, _, σ =>
    match op i with
    | Except.ok v =>
      { result := Except.ok v
        state := updateRemoteState cfg remoteId true σ
        reports := [true]
        attemptsUsed := 1 }
    | Except.error e =>
      let r := withRetryGo cfg op remoteId remaining (i + 1) (some e) σ
      { r with attemptsUsed := r.attemptsUsed + 1 }

/-- Source `withRetry(operation, remoteId, attempts = retryAttempts)`. -/
def withRetry {α : Type} (cfg : OfflineFallbackConfig)
    (op : Nat → Except JsError α) (remoteId : String) (attempts : Nat)
    (σ : PluginState) : RetryResult α :=
  withRetryGo cfg op remoteId attempts 0 none σ

/-- The plugin object's `name` field: the string the `beforeRequest`
hook reads back through `this.name`. -/
def pluginName : String := "enhanced-offline-fallback-plugin"

/-- The argument object of the `beforeRequest` hook; the field the
claims are about is the requested remote's identifier `args.id`. -/
structure BeforeRequestArgs where
  id : String
  deriving DecidableEq, Repr

/-- Source `beforeRequest(args)` hook.  Note the key it checks:
`const remoteId = this.name || 'unknown'` — the plugin object's own
`name`, not the requested remote in `args`.  Throws when that key's
circuit is open, otherwise logs and returns `args` unchanged. -/
def beforeRequest (cfg : OfflineFallbackConfig) (args : BeforeRequestArgs)
    (σ : PluginState) : Except JsError BeforeRequestArgs :=
  let remoteId := jsStringOr (some pluginName) "unknown"
  if isCircuitOpen cfg remoteId σ then
    Except.error { message := "Circuit breaker open for remote: " ++ remoteId }
  else
    Except.ok args

/-- The argument object of the `errorLoadRemote` hook:
`{ id, error, from, lifecycle }`.  (`from` is a Lean keyword, hence
`fromArg`.) -/
structure ErrorLoadArgs where
  id : Option String
  error : Option JsError
  fromArg : Option String
  lifecycle : String
  deriving DecidableEq, Repr

/-- Source `const remoteId = id || from || 'unknown'` in
`errorLoadRemote`. -/
def errRemoteId (args : ErrorLoadArgs) : String :=
  jsStringOr args.id (jsStringOr args.fromArg "unknown")

/-- The values the `errorLoadRemote` dispatcher can hand back to the
host runtime: a fallback module object, the no-argument factory closure
`() => createFallbackModule(remoteId, error)` from the `'onLoad'` arm
(represented by the two values it captures), or the request descriptor
`args` itself (the source never builds this last one; it is in the type
so that the spec's "returns the request descriptor" is expressible). -/
inductive DispatchResult where
  | module (m : FallbackModule)
  | factory (remoteId : String) (error : Option JsError)
  | request (a : ErrorLoadArgs)
  deriving DecidableEq, Repr

/-- Source `errorLoadRemote(args)` hook: switch on `args.lifecycle`.
The `'beforeRequest'`/`'loadEntry'` arm consults the circuit breaker
and returns a fallback module either way (its `try`/`catch` wraps pure
construction that cannot throw, so the `catch` arm is dead and the
`try` body is translated directly).  The `'onLoad'` arm returns the
factory closure without touching the cache.  The `default` arm returns
a fallback module.  `Except.ok (some _)` is a JS `return` of a defined
value; `Except.ok none` would be returning `undefined` and
`Except.error` would be an uncaught throw — neither is built by any
arm. -/
def errorLoadRemote (cfg : OfflineFallbackConfig) (args : ErrorLoadArgs)
    (σ : PluginState) : Except JsError (Option DispatchResult) × PluginState :=
  let remoteId := errRemoteId args
  if args.lifecycle = "beforeRequest" ∨ args.lifecycle = "loadEntry" then
    if isCircuitOpen cfg remoteId σ then
      let r := createFallbackModule cfg remoteId args.error σ
      (Except.ok (some (DispatchResult.module r.1)), r.2)
    else
      let r := createFallbackModule cfg remoteId args.error σ
      (Except.ok (some (DispatchResult.module r.1)), r.2)
  else if args.lifecycle = "onLoad" then
    (Except.ok (some (DispatchResult.factory remoteId args.error)), σ)
  else
    let r := createFallbackModule cfg remoteId args.error σ
    (Except.ok (some (DispatchResult.module r.1)), r.2)

/-- Invoking the factory closure returned by the `'onLoad'` arm:
`() => createFallbackModule(remoteId, error)` run against the plugin
state at invocation time. -/
def invokeFactory (cfg : OfflineFallbackConfig) (remoteId : String)
    (error : Option JsError) (σ : PluginState) : FallbackModule × PluginState :=
  createFallbackModule cfg remoteId error σ

/-- Source `onLoad(args)` hook: a success report for `args.id` (the
spec's `onSuccess`), returning `args` unchanged. -/
def onLoadHook (cfg : OfflineFallbackConfig) (argsId : Option String)
    (σ : PluginState) : PluginState :=
  updateRemoteState cfg (jsStringOr argsId "unknown") true σ

/-! ## Association-list lemmas -/

theorem alget_alset_self {β : Type} (k : String) (v : β)
    (m : List (String × β)) : alget k (alset k v m) = some v := by
  induction m with
  | nil => simp [alget, alset]
  | cons p rest ih =>
    obtain ⟨k', v'⟩ := p
    by_cases h : k' = k
    · simp [alset, alget, h]
    · simp [alset, alget, h, ih]

theorem alget_alset_ne {β : Type} {j k : String} (h : j ≠ k) (v : β)
    (m : List (String × β)) : alget j (alset k v m) = alget j m := by
  induction m with
  | nil =>
    simp only [alset, alget]
    rw [if_neg (fun hh => h hh.symm)]
  | cons p rest ih =>
    obtain ⟨k', v'⟩ := p
    by_cases hk : k' = k
    · subst hk
      simp only [alset, if_pos rfl, alget]
      rw [if_neg (fun hh => h hh.symm), if_neg (fun hh => h hh.symm)]
    · simp only [alset, if_neg hk, alget, ih]

/-! ## Registry lemmas -/

theorem getRemoteState_update_self (cfg : OfflineFallbackConfig)
    (r : String) (b : Bool) (σ : PluginState) :
    getRemoteState (updateRemoteState cfg r b σ) r =
      (if b then
        { getRemoteState σ r with failureCount := 0, isCircuitOpen := false }
      else
        let s1 := { getRemoteState σ r with
                      failureCount := (getRemoteState σ r).failureCount + 1,
                      lastFailureTime := σ.now }
        if cfg.enableCircuitBreaker && cfg.circuitBreakerThreshold ≤ s1.failureCount then
          { s1 with isCircuitOpen := true }
        else s1) := by
  cases b <;> simp [updateRemoteState, getRemoteState, alget_alset_self]

/-- A failure report increments the stored failure count by exactly one. -/
theorem failureCount_after_failure (cfg : OfflineFallbackConfig)
    (r : String) (σ : PluginState) :
    (getRemoteState (updateRemoteState cfg r false σ) r).failureCount =
      (getRemoteState σ r).failureCount + 1 := by
  rw [getRemoteState_update_self]
  by_cases h : cfg.enableCircuitBreaker = true ∧
      cfg.circuitBreakerThreshold ≤ (getRemoteState σ r).failureCount + 1
  · simp [h.1, h.2]
  · rcases Decidable.not_and_iff_or_not.mp h with h1 | h1 <;> simp [h1]

/-- The failure report whose increment reaches the threshold sets the
open flag within that same call. -/
theorem circuitOpen_after_reaching_failure (cfg : OfflineFallbackConfig)
    (r : String) (σ : PluginState)
    (henable : cfg.enableCircuitBreaker = true)
    (hreach : cfg.circuitBreakerThreshold ≤ (getRemoteState σ r).failureCount + 1) :
    (getRemoteState (updateRemoteState cfg r false σ) r).isCircuitOpen = true := by
  rw [getRemoteState_update_self]
  simp [henable, hreach]

/-- Any `n` consecutive failure reports add exactly `n` to the count. -/
theorem failureCount_after_recordFailures (cfg : OfflineFallbackConfig)
    (r : String) (σ : PluginState) (n : Nat) :
    (getRemoteState (recordFailures cfg r n σ) r).failureCount =
      (getRemoteState σ r).failureCount + n := by
  induction n with
  | zero => rfl
  | succ k ih =>
    rw [recordFailures, failureCount_after_failure, ih]
    omega

/-! ## Claim theorems -/

/-- C2: with circuit breaking enabled and a positive threshold, after
`circuitBreakerThreshold` consecutive `recordFailure(R)` calls (no
intervening success, no timer reset) `isOpen(R)` is true, from any
starting registry state; and (second conjunct) the Closed-to-Open
transition is synchronous: the single `recordFailure` call whose
increment makes `failureCount` reach the threshold already leaves the
circuit open. -/
theorem circuit_opens_after_threshold_failures (cfg : OfflineFallbackConfig)
    (R : String) (σ : PluginState)
    (henable : cfg.enableCircuitBreaker = true)
    (hpos : 0 < cfg.circuitBreakerThreshold) :
    isCircuitOpen cfg R (recordFailures cfg R cfg.circuitBreakerThreshold σ) = true ∧
    (∀ τ : PluginState,
      cfg.circuitBreakerThreshold ≤ (getRemoteState τ R).failureCount + 1 →
      isCircuitOpen cfg R (updateRemoteState cfg R false τ) = true) := by
  constructor
  · obtain ⟨t, ht⟩ : ∃ t, cfg.circuitBreakerThreshold = t + 1 :=
      ⟨cfg.circuitBreakerThreshold - 1, by omega⟩
    rw [ht, recordFailures]
    have hcount := failureCount_after_recordFailures cfg R σ t
    have hopen := circuitOpen_after_reaching_failure cfg R
      (recordFailures cfg R t σ) henable (by rw [hcount]; omega)
    simp [isCircuitOpen, henable, hopen]
  · intro τ hreach
    have hopen := circuitOpen_after_reaching_failure cfg R τ henable hreach
    simp [isCircuitOpen, henable, hopen]

/-- Witness for C2 at the default configuration (threshold 3), remote
`"foo"`, fresh plugin state. -/
theorem circuit_opens_after_threshold_failures_witness :
    defaultConfig.enableCircuitBreaker = true ∧
    0 < defaultConfig.circuitBreakerThreshold ∧
    isCircuitOpen defaultConfig "foo"
      (recordFailures defaultConfig "foo"
        defaultConfig.circuitBreakerThreshold initialState) = true :=
  ⟨rfl, by decide,
    (circuit_opens_after_threshold_failures defaultConfig "foo" initialState
      rfl (by decide)).1⟩

/-- The fallback cache is idempotent: a repeated `getOrCreate` with the
same arguments returns the module stored by the first call and leaves
the state unchanged. -/
theorem createFallbackModule_idem (cfg : OfflineFallbackConfig)
    (r : String) (e : Option JsError) (σ : PluginState) :
    createFallbackModule cfg r e (createFallbackModule cfg r e σ).2 =
      createFallbackModule cfg r e σ := by
  cases h : alget (cacheKey r e) σ.fallbackCache with
  | some m => simp [createFallbackModule, h]
  | none => simp [createFallbackModule, h, alget_alset_self]

/-- C7: `getOrCreate(R, E)` called twice with the identical pair
returns the identical cached module instance (and the second call does
not change the cache), so every subsequent lookup for the same key
returns the value stored by the first. -/
theorem getOrCreate_referentially_stable (cfg : OfflineFallbackConfig)
    (R : String) (E : Option JsError) (σ : PluginState) :
    createFallbackModule cfg R E (createFallbackModule cfg R E σ).2 =
      createFallbackModule cfg R E σ :=
  createFallbackModule_idem cfg R E σ

/-- C1: for every failure report `{remoteId, error, stage}` and every
stage value — the recognized ones and unrecognized ones alike — the
dispatcher `errorLoadRemote` returns a defined, non-falsy value (a
fallback module object or a factory function) and never throws: its
outcome is always `Except.ok (some v)` with `v` a module or a factory,
never `Except.error` (a throw) and never `Except.ok none`
(returning `undefined`). -/
theorem dispatcher_always_returns_usable (cfg : OfflineFallbackConfig)
    (args : ErrorLoadArgs) (σ : PluginState) :
    ∃ v : DispatchResult,
      (errorLoadRemote cfg args σ).1 = Except.ok (some v) ∧
      ((∃ m, v = DispatchResult.module m) ∨
       (∃ r e, v = DispatchResult.factory r e)) := by
  unfold errorLoadRemote
  by_cases h1 : args.lifecycle = "beforeRequest" ∨ args.lifecycle = "loadEntry"
  · by_cases h2 : isCircuitOpen cfg (errRemoteId args) σ = true
    · exact ⟨DispatchResult.module
        (createFallbackModule cfg (errRemoteId args) args.error σ).1,
        by simp [h1, h2], Or.inl ⟨_, rfl⟩⟩
    · exact ⟨DispatchResult.module
        (createFallbackModule cfg (errRemoteId args) args.error σ).1,
        by simp [h1, h2], Or.inl ⟨_, rfl⟩⟩
  · by_cases h3 : args.lifecycle = "onLoad"
    · exact ⟨DispatchResult.factory (errRemoteId args) args.error,
        by simp [h1, h3], Or.inr ⟨_, _, rfl⟩⟩
    · exact ⟨DispatchResult.module
        (createFallbackModule cfg (errRemoteId args) args.error σ).1,
        by simp [h1, h3], Or.inl ⟨_, rfl⟩⟩

/-- A concrete failure report at stage `'beforeRequest'` whose remote's
circuit is closed, used to settle C3. -/
def c3args : ErrorLoadArgs :=
  { id := some "foo", error := some { message := "boom" },
    fromArg := none, lifecycle := "beforeRequest" }

/-- C3 counterexample: at stage `'beforeRequest'` with the circuit for
`"foo"` closed, the dispatcher does NOT return the request descriptor
it was given — it returns a substitute fallback module from the cache.
(The third conjunct checks the claim's precondition: the circuit really
is closed at this input.) -/
theorem beforeRequest_stage_not_descriptor :
    (errorLoadRemote defaultConfig c3args initialState).1 =
      Except.ok (some (DispatchResult.module
        { serial := 0, esModule := true,
          defaultExport := Component.generated "foo" (some "boom"),
          namedKey := "foo",
          namedExport := Component.generated "foo" (some "boom") })) ∧
    (errorLoadRemote defaultConfig c3args initialState).1 ≠
      Except.ok (some (DispatchResult.request c3args)) ∧
    isCircuitOpen defaultConfig (errRemoteId c3args) initialState = false := by
  refine ⟨by decide, ?_, by decide⟩
  intro h
  have := (by decide :
    (errorLoadRemote defaultConfig c3args initialState).1 ≠
      Except.ok (some (DispatchResult.request c3args)))
  exact this h

/-- C3 amended: for every failure report at stage `'beforeRequest'`
whose remote's circuit is not open, the dispatcher logs and returns a
substitute fallback module obtained from the fallback cache
(`getOrCreate(remoteId, error)`) — not the request descriptor. -/
theorem beforeRequest_stage_returns_fallback_module
    (cfg : OfflineFallbackConfig) (args : ErrorLoadArgs) (σ : PluginState)
    (hstage : args.lifecycle = "beforeRequest")
    (hclosed : isCircuitOpen cfg (errRemoteId args) σ = false) :
    errorLoadRemote cfg args σ =
      (Except.ok (some (DispatchResult.module
        (createFallbackModule cfg (errRemoteId args) args.error σ).1)),
       (createFallbackModule cfg (errRemoteId args) args.error σ).2) := by
  unfold errorLoadRemote
  rw [if_pos (Or.inl hstage), if_neg (by simp [hclosed])]

/-- Witness for the amended C3 at the concrete input `c3args`. -/
theorem beforeRequest_stage_returns_fallback_module_witness :
    c3args.lifecycle = "beforeRequest" ∧
    isCircuitOpen defaultConfig (errRemoteId c3args) initialState = false ∧
    errorLoadRemote defaultConfig c3args initialState =
      (Except.ok (some (DispatchResult.module
        (createFallbackModule defaultConfig (errRemoteId c3args)
          c3args.error initialState).1)),
       (createFallbackModule defaultConfig (errRemoteId c3args)
          c3args.error initialState).2) :=
  ⟨rfl, by decide,
    beforeRequest_stage_returns_fallback_module defaultConfig c3args
      initialState rfl (by decide)⟩

/-- C4: a failure dispatched at stage `'onLoad'` returns the
no-argument factory `() => createFallbackModule(remoteId, error)`
(leaving the plugin state untouched), and invoking that factory yields
exactly the artifact — the same cached instance, and the same resulting
state — that `getOrCreate(remoteId, error)` produces when called
directly. -/
theorem onLoad_stage_factory_matches_getOrCreate
    (cfg : OfflineFallbackConfig) (args : ErrorLoadArgs) (σ : PluginState)
    (hstage : args.lifecycle = "onLoad") :
    errorLoadRemote cfg args σ =
      (Except.ok (some (DispatchResult.factory (errRemoteId args) args.error)), σ) ∧
    invokeFactory cfg (errRemoteId args) args.error
        (createFallbackModule cfg (errRemoteId args) args.error σ).2 =
      createFallbackModule cfg (errRemoteId args) args.error σ := by
  constructor
  · unfold errorLoadRemote
    rw [if_neg (by simp [hstage]), if_pos hstage]
  · exact createFallbackModule_idem cfg (errRemoteId args) args.error σ

/-- The `onFailure({remoteId: "bar", error: Error("404"),
stage: "artifact-load"})` report from the spec's scenario. -/
def c4args : ErrorLoadArgs :=
  { id := some "bar", error := some { message := "404" },
    fromArg := none, lifecycle := "onLoad" }

/-- Witness for C4 at the spec's own scenario input `c4args`. -/
theorem onLoad_stage_factory_matches_getOrCreate_witness :
    c4args.lifecycle = "onLoad" ∧
    (errorLoadRemote defaultConfig c4args initialState =
      (Except.ok (some (DispatchResult.factory (errRemoteId c4args)
        c4args.error)), initialState) ∧
     invokeFactory defaultConfig (errRemoteId c4args) c4args.error
        (createFallbackModule defaultConfig (errRemoteId c4args)
          c4args.error initialState).2 =
      createFallbackModule defaultConfig (errRemoteId c4args)
        c4args.error initialState) :=
  ⟨rfl, onLoad_stage_factory_matches_getOrCreate defaultConfig c4args
    initialState rfl⟩

/-! ## Retry-executor lemmas -/

/-- When every attempt the loop will run fails, the loop runs them all,
makes exactly one (failure) report, and throws the error of the last
attempt. -/
theorem withRetryGo_all_fail {α : Type} (cfg : OfflineFallbackConfig)
    (op : Nat → Except JsError α) (R : String) (es : Nat → JsError) :
    ∀ remaining : Nat, 0 < remaining →
    ∀ (i : Nat) (le : Option JsError) (σ : PluginState),
    (∀ j, i ≤ j → j < i + remaining → op j = Except.error (es j)) →
    withRetryGo cfg op R remaining i le σ =
      { result := Except.error (es (i + remaining - 1))
        state := updateRemoteState cfg R false σ
        reports := [false]
        attemptsUsed := remaining } := by
  intro remaining
  induction remaining with
  | zero => omega
  | succ m ih =>
    intro _ i le σ hfail
    have hi : op i = Except.error (es i) := hfail i (Nat.le_refl i) (by omega)
    cases m with
    | zero =>
      simp [withRetryGo, hi]
    | succ m' =>
      have hrec := ih (by omega) (i + 1) (some (es i)) σ
        (fun j hj1 hj2 => hfail j (by omega) (by omega))
      have hidx : i + 1 + (m' + 1) - 1 = i + (m' + 1 + 1) - 1 := by omega
      rw [withRetryGo, hi]
      simp only [hrec, hidx]

/-- When attempt `i + k` succeeds and the `k` attempts before it fail,
the loop stops at the success, makes exactly one (success) report, and
returns the success value, having used `k + 1` attempts. -/
theorem withRetryGo_first_success {α : Type} (cfg : OfflineFallbackConfig)
    (op : Nat → Except JsError α) (R : String) (v : α) :
    ∀ k remaining : Nat, k < remaining →
    ∀ (i : Nat) (le : Option JsError) (σ : PluginState),
    op (i + k) = Except.ok v →
    (∀ j, i ≤ j → j < i + k → ∃ e, op j = Except.error e) →
    withRetryGo cfg op R remaining i le σ =
      { result := Except.ok v
        state := updateRemoteState cfg R true σ
        reports := [true]
        attemptsUsed := k + 1 } := by
  intro k
  induction k with
  | zero =>
    intro remaining hk i le σ hsucc _
    obtain ⟨m, rfl⟩ : ∃ m, remaining = m + 1 := ⟨remaining - 1, by omega⟩
    rw [Nat.add_zero] at hsucc
    rw [withRetryGo, hsucc]
  | succ k' ih =>
    intro remaining hk i le σ hsucc hprev
    obtain ⟨m, rfl⟩ : ∃ m, remaining = m + 1 := ⟨remaining - 1, by omega⟩
    obtain ⟨e, he⟩ := hprev i (Nat.le_refl i) (by omega)
    have hrec := ih m (by omega) (i + 1) (some e) σ
      (by rw [show i + 1 + k' = i + (k' + 1) by omega]; exact hsucc)
      (fun j hj1 hj2 => hprev j (by omega) (by omega))
    rw [withRetryGo, he]
    simp only [hrec]

/-- C5: when every one of the `attempts ≥ 1` tries fails, `withRetry`
throws the error of the last attempt (earlier errors are discarded),
makes exactly one failure report to the registry for the whole
invocation, and that report increments the remote's `failureCount` by
exactly one. -/
theorem withRetry_all_fail_reports_once {α : Type}
    (cfg : OfflineFallbackConfig) (op : Nat → Except JsError α)
    (R : String) (attempts : Nat) (σ : PluginState) (es : Nat → JsError)
    (hpos : 1 ≤ attempts)
    (hfail : ∀ j, j < attempts → op j = Except.error (es j)) :
    withRetry cfg op R attempts σ =
      { result := Except.error (es (attempts - 1))
        state := updateRemoteState cfg R false σ
        reports := [false]
        attemptsUsed := attempts } ∧
    (getRemoteState (withRetry cfg op R attempts σ).state R).failureCount =
      (getRemoteState σ R).failureCount + 1 := by
  have h := withRetryGo_all_fail cfg op R es attempts (by omega) 0 none σ
    (fun j hj1 hj2 => hfail j (by omega))
  rw [show (0 : Nat) + attempts - 1 = attempts - 1 by omega] at h
  refine ⟨h, ?_⟩
  rw [withRetry, h]
  exact failureCount_after_failure cfg R σ

/-- The always-failing operation used to witness C5. -/
def c5op : Nat → Except JsError Nat :=
  fun _ => Except.error { message := "boom" }

/-- Witness for C5: two attempts of an operation that always fails with
`"boom"` end in a single failure report and the last error. -/
theorem withRetry_all_fail_reports_once_witness :
    withRetry defaultConfig c5op "foo" 2 initialState =
      { result := Except.error { message := "boom" }
        state := updateRemoteState defaultConfig "foo" false initialState
        reports := [false]
        attemptsUsed := 2 } :=
  (withRetry_all_fail_reports_once defaultConfig c5op "foo" 2 initialState
    (fun _ => { message := "boom" }) (by decide) (fun _ _ => rfl)).1

/-- C6: when attempt `k` succeeds with `v` (all earlier attempts having
failed) and `k < attempts`, `withRetry` returns `v` immediately — it
uses exactly `k + 1` of the allowed attempts and performs no further
ones — and reports exactly one success (a single report, not one per
attempt) to the registry. -/
theorem withRetry_success_returns_immediately {α : Type}
    (cfg : OfflineFallbackConfig) (op : Nat → Except JsError α)
    (R : String) (attempts : Nat) (σ : PluginState) (k : Nat) (v : α)
    (hk : k < attempts)
    (hsucc : op k = Except.ok v)
    (hprev : ∀ j, j < k → ∃ e, op j = Except.error e) :
    withRetry cfg op R attempts σ =
      { result := Except.ok v
        state := updateRemoteState cfg R true σ
        reports := [true]
        attemptsUsed := k + 1 } := by
  have h := withRetryGo_first_success cfg op R v k attempts hk 0 none σ
    (by rw [show (0 : Nat) + k = k by omega]; exact hsucc)
    (fun j hj1 hj2 => hprev j (by omega))
  exact h

/-- The spec scenario's operation for C6: fails on attempts 0 and 1,
succeeds with `42` from attempt 2 on. -/
def c6op : Nat → Except JsError Nat :=
  fun j => if j < 2 then Except.error { message := "down" } else Except.ok 42

/-- Witness for C6 at the spec's scenario: `attempts = 3`, an operation
that fails twice then succeeds, returns the success result with exactly
one success report. -/
theorem withRetry_success_returns_immediately_witness :
    withRetry defaultConfig c6op "foo" 3 initialState =
      { result := Except.ok 42
        state := updateRemoteState defaultConfig "foo" true initialState
        reports := [true]
        attemptsUsed := 3 } :=
  withRetry_success_returns_immediately defaultConfig c6op "foo" 3
    initialState 2 42 (by decide) rfl
    (fun j hj => ⟨{ message := "down" }, by simp [c6op, hj]⟩)

/-! ## Cache-key claims -/

/-- Modelled from the spec's words for comparison with the source's
`cacheKey`: `remoteId + ":" + (error?.message ?? "default")` — colon
separator, and (nullish coalescing) the sentinel used exactly when the
error or its message is absent, so a present empty message is kept. -/
def specCacheKey (remoteId : String) (error : Option JsError) : String :=
  remoteId ++ ":" ++
    (match error with
     | some e => e.message
     | none => "default")

/-- C8 counterexample: the source key joins with an underscore, not a
colon, and (via JS `||`) maps a present-but-empty message to the
sentinel as well, so it differs from the spec's formula already at
`remoteId = "r"`, `message = "m"`, and again at `message = ""`. -/
theorem cacheKey_not_spec_formula :
    cacheKey "r" (some { message := "m" }) = "r_m" ∧
    specCacheKey "r" (some { message := "m" }) = "r:m" ∧
    cacheKey "r" (some { message := "m" }) ≠
      specCacheKey "r" (some { message := "m" }) ∧
    cacheKey "r" (some { message := "" }) = "r_default" ∧
    specCacheKey "r" (some { message := "" }) = "r:" := by
  refine ⟨rfl, rfl, ?_, rfl, rfl⟩
  decide

/-- The key formula the source actually computes, stated in the
spec's style: underscore separator, and the sentinel `"default"` used
when the error is absent or its message is empty. -/
def amendedCacheKey (remoteId : String) (error : Option JsError) : String :=
  remoteId ++ "_" ++
    (match error with
     | some e => if e.message = "" then "default" else e.message
     | none => "default")

/-- C8 amended: for every `remoteId` and optional error, the cache key
is `remoteId + "_" + (message when present and non-empty, else
"default")` — underscore separator, sentinel also for a present empty
message. -/
theorem cacheKey_matches_amended_formula (remoteId : String)
    (error : Option JsError) :
    cacheKey remoteId error = amendedCacheKey remoteId error := by
  cases error with
  | none => rfl
  | some e =>
    by_cases h : e.message = "" <;>
      simp [cacheKey, amendedCacheKey, jsStringOr, h]

/-- C9 counterexample: the two distinct errors with messages
`"default"` and `""` produce the same cache key (`"r_default"`), so the
two `getOrCreate` calls return the identical cached instance, not
distinct ones. -/
theorem getOrCreate_distinct_errors_same_instance :
    ({ message := "default" } : JsError) ≠ { message := "" } ∧
    (createFallbackModule defaultConfig "r" (some { message := "" })
        (createFallbackModule defaultConfig "r"
          (some { message := "default" }) initialState).2).1 =
      (createFallbackModule defaultConfig "r"
        (some { message := "default" }) initialState).1 := by
  constructor
  · decide
  · decide

/-- Cache well-formedness: every cached module was stamped below the
current serial counter, and modules cached under distinct keys carry
distinct serial stamps (they are distinct objects). Holds for the
initial state and is preserved by `createFallbackModule`. -/
def CacheWF (σ : PluginState) : Prop :=
  (∀ k m, alget k σ.fallbackCache = some m → m.serial < σ.nextSerial) ∧
  (∀ k1 k2 m1 m2, alget k1 σ.fallbackCache = some m1 →
    alget k2 σ.fallbackCache = some m2 → k1 ≠ k2 → m1.serial ≠ m2.serial)

theorem cacheWF_initial : CacheWF initialState := by
  constructor
  · intro k m h
    simp [initialState, alget] at h
  · intro k1 k2 m1 m2 h1 h2 _
    simp [initialState, alget] at h1

/-- C9 amended: `getOrCreate(R, E1)` followed by `getOrCreate(R, E2)`
return distinct module instances whenever the two calls' cache keys
differ — i.e. whenever the errors' failure signatures (message when
non-empty, else the sentinel) differ — for any well-formed cache
state. -/
theorem getOrCreate_distinct_keys_distinct_instances
    (cfg : OfflineFallbackConfig) (R : String)
    (E1 E2 : Option JsError) (σ : PluginState)
    (hwf : CacheWF σ)
    (hne : cacheKey R E1 ≠ cacheKey R E2) :
    (createFallbackModule cfg R E2
        (createFallbackModule cfg R E1 σ).2).1 ≠
      (createFallbackModule cfg R E1 σ).1 := by
  have hser :
      (createFallbackModule cfg R E2
          (createFallbackModule cfg R E1 σ).2).1.serial ≠
        (createFallbackModule cfg R E1 σ).1.serial := by
    cases h1 : alget (cacheKey R E1) σ.fallbackCache with
    | some m1 =>
      cases h2 : alget (cacheKey R E2) σ.fallbackCache with
      | some m2 =>
        have := hwf.2 (cacheKey R E2) (cacheKey R E1) m2 m1 h2 h1
          (fun hh => hne hh.symm)
        simp [createFallbackModule, h1, h2]
        exact this
      | none =>
        have := hwf.1 (cacheKey R E1) m1 h1
        simp [createFallbackModule, h1, h2]
        omega
    | none =>
      have h2' : alget (cacheKey R E2)
          (alset (cacheKey R E1)
            { serial := σ.nextSerial, esModule := true,
              defaultExport := createFallbackComponent cfg R E1,
              namedKey := R,
              namedExport := createFallbackComponent cfg R E1 }
            σ.fallbackCache) = alget (cacheKey R E2) σ.fallbackCache :=
        alget_alset_ne (fun hh => hne hh.symm) _ _
      cases h2 : alget (cacheKey R E2) σ.fallbackCache with
      | some m2 =>
        have := hwf.1 (cacheKey R E2) m2 h2
        simp [createFallbackModule, h1, h2', h2]
        omega
      | none =>
        simp [createFallbackModule, h1, h2', h2]
  exact fun heq => hser (congrArg FallbackModule.serial heq)

/-- Witness for the amended C9: messages `"a"` and `"b"` have distinct
signatures, and the two calls return distinct instances. -/
theorem getOrCreate_distinct_keys_distinct_instances_witness :
    (createFallbackModule defaultConfig "r" (some { message := "b" })
        (createFallbackModule defaultConfig "r"
          (some { message := "a" }) initialState).2).1 ≠
      (createFallbackModule defaultConfig "r"
        (some { message := "a" }) initialState).1 :=
  getOrCreate_distinct_keys_distinct_instances defaultConfig "r"
    (some { message := "a" }) (some { message := "b" }) initialState
    cacheWF_initial (by decide)

/-! ## The beforeRequest hook (C10) -/

/-- C10: the `beforeRequest` hook checks the circuit against the state
keyed by the plugin object's own `name` (`this.name`), not by the
requested remote in `args`: for any remote `args.id` whose circuit is
open, the hook still returns `args` unchanged whenever nothing has been
recorded under the plugin-name key. -/
theorem beforeRequest_keyed_by_plugin_name
    (cfg : OfflineFallbackConfig) (args : BeforeRequestArgs)
    (σ : PluginState)
    (hopen : isCircuitOpen cfg args.id σ = true)
    (hplug : alget pluginName σ.remoteStates = none) :
    beforeRequest cfg args σ = Except.ok args := by
  have hplug' : alget "enhanced-offline-fallback-plugin" σ.remoteStates
      = none := hplug
  have h2 : isCircuitOpen cfg (jsStringOr (some pluginName) "unknown") σ
      = false := by
    cases hcb : cfg.enableCircuitBreaker <;>
      simp [isCircuitOpen, getRemoteState, jsStringOr, pluginName, hplug', hcb]
  simp [beforeRequest, h2]

/-- A registry in which remote `"foo"` has tripped its breaker, while
nothing was ever recorded under the plugin-name key. -/
def c10state : PluginState :=
  { remoteStates :=
      [("foo", { failureCount := 3, lastFailureTime := 5, isCircuitOpen := true })]
    fallbackCache := []
    now := 9
    nextSerial := 0 }

/-- Witness for C10: `"foo"`'s circuit is open, yet the hook lets the
request for `"foo"` through unchanged. -/
theorem beforeRequest_keyed_by_plugin_name_witness :
    isCircuitOpen defaultConfig "foo" c10state = true ∧
    beforeRequest defaultConfig { id := "foo" } c10state =
      Except.ok { id := "foo" } :=
  ⟨by decide,
    beforeRequest_keyed_by_plugin_name defaultConfig { id := "foo" }
      c10state (by decide) (by decide)⟩

end OfflinePlugin
